import Mathlib

/-!
Verification of the safe expression evaluators of this repository.

The repository contains two Streamlit calculator front-ends; the component
under specification is their AST-based safe expression evaluator:

* `src/Scientic_Cal.py` — `_BIN_OPS`, `_UNARY_OPS`, `make_allowed_funcs`,
  `class SafeEval(ast.NodeVisitor)` and `safe_eval`;
* `src/Calculator.py` — `ALLOWED_OPERATORS` and the inner `_eval` of `safe_eval`.

The embedding below mirrors the Python source.  Python machine floats are
idealized as real numbers (ℝ); Python `complex` values are pairs of reals.
Each distinct `raise` site of the source becomes one constructor of `Err`,
and a Python exception escaping an allow-listed math function is a `String`
message re-signaled by the call dispatch, exactly as `visit_Call` wraps any
exception into the ValueError it raises in its place.
-/

open Classical

noncomputable section

/-- Python runtime values flowing through the evaluator: `int`, `float`
(idealized as ℝ) and `complex` (pair of ℝ).  Python `bool` literals are
accepted by `visit_Constant` because `bool` is a subclass of `int`; they are
modelled as the ints 0/1. -/
inductive PyVal where
  | int (n : ℤ)
  | float (x : ℝ)
  | complex (re im : ℝ)

/-- A value is "real" when it is not a Python `complex`. -/
def isRealVal : PyVal → Bool
  | .complex _ _ => false
  | _ => true

/-- Python `==`-style zero test, used by the runtime before raising
`ZeroDivisionError` on a zero divisor. -/
def isZeroVal : PyVal → Prop
  | .int n => n = 0
  | .float x => x = 0
  | .complex re im => re = 0 ∧ im = 0

/-- Literal payloads of `ast.Constant` nodes. -/
inductive PyConst where
  | int (n : ℤ)
  | float (x : ℝ)
  | boolean (b : Bool)
  | str (s : String)
  | noneC

/-- Binary operator kinds of `ast.BinOp` nodes (the full host set, so that
the allow-list dicts are genuinely partial). -/
inductive BinKind where
  | add | sub | mult | div | mod | pow | floorDiv
  | bitOr | bitAnd | bitXor | lshift | rshift | matMult
deriving DecidableEq

/-- Python class name of a binary operator node, as interpolated into the
operator-not-allowed message. -/
def binKindName : BinKind → String
  | .add => "Add" | .sub => "Sub" | .mult => "Mult" | .div => "Div"
  | .mod => "Mod" | .pow => "Pow" | .floorDiv => "FloorDiv"
  | .bitOr => "BitOr" | .bitAnd => "BitAnd" | .bitXor => "BitXor"
  | .lshift => "LShift" | .rshift => "RShift" | .matMult => "MatMult"

/-- Unary operator kinds of `ast.UnaryOp` nodes. -/
inductive UnKind where
  | uadd | usub | notOp | invert
deriving DecidableEq

/-- Python class name of a unary operator node. -/
def unKindName : UnKind → String
  | .uadd => "UAdd" | .usub => "USub" | .notOp => "Not" | .invert => "Invert"

/-- Comparison operator kinds (payload of `ast.Compare`, always rejected). -/
inductive CmpKind where
  | eq | notEq | lt | ltE | gt | gtE | isOp | isNot | inOp | notIn
deriving DecidableEq

/-- Expression nodes reachable from the host grammar in `eval`-mode parsing.
The first five constructors are the kinds the evaluators handle
(`visit_Constant`, `visit_BinOp`, `visit_UnaryOp`, `visit_Call`,
`visit_Name`); the rest are representative node types that fall through to
`generic_visit` / the terminal `raise`. -/
inductive Expr where
  | constant (c : PyConst)
  | binOp (k : BinKind) (l r : Expr)
  | unaryOp (k : UnKind) (e : Expr)
  | call (f : Expr) (args : List Expr) (kwargs : List (String × Expr))
  | name (id : String)
  | attribute (e : Expr) (attr : String)
  | subscript (e idx : Expr)
  | compare (l : Expr) (rest : List (CmpKind × Expr))
  | boolOp (isAnd : Bool) (es : List Expr)
  | ifExp (c t e : Expr)
  | lambdaE (body : Expr)
  | listE (es : List Expr)
  | tupleE (es : List Expr)
  | setE (es : List Expr)
  | dictE (es : List (Expr × Expr))
  | listComp (body : Expr)
  | namedExpr (id : String) (e : Expr)
  | joinedStr (es : List Expr)
  | starred (e : Expr)

/-- Python class name of a node, as interpolated into the
unsupported-expression-element message. -/
def kindName : Expr → String
  | .constant _ => "Constant"
  | .binOp _ _ _ => "BinOp"
  | .unaryOp _ _ => "UnaryOp"
  | .call _ _ _ => "Call"
  | .name _ => "Name"
  | .attribute _ _ => "Attribute"
  | .subscript _ _ => "Subscript"
  | .compare _ _ => "Compare"
  | .boolOp _ _ => "BoolOp"
  | .ifExp _ _ _ => "IfExp"
  | .lambdaE _ => "Lambda"
  | .listE _ => "List"
  | .tupleE _ => "Tuple"
  | .setE _ => "Set"
  | .dictE _ => "Dict"
  | .listComp _ => "ListComp"
  | .namedExpr _ _ => "NamedExpr"
  | .joinedStr _ => "JoinedStr"
  | .starred _ => "Starred"

/-- A node kind is forbidden when it is none of the five kinds the
evaluators dispatch on (it has no `visit_` method / no `isinstance` branch,
so it reaches `generic_visit` / the terminal `raise`). -/
def forbiddenKind : Expr → Bool
  | .constant _ => false
  | .binOp _ _ _ => false
  | .unaryOp _ _ => false
  | .call _ _ _ => false
  | .name _ => false
  | _ => true

/-- Evaluation failures.  Every constructor corresponds to one `raise` site
of the Python source (or, for `divisionByZero`, to the `ZeroDivisionError`
of the host runtime); all of them surface as a caught exception at the
evaluation boundary (`evaluate_expression` catches `Exception`). -/
inductive Err where
  /-- Raised by `visit_Constant`: only numeric constants are allowed; also
  the host TypeError raised by `%` and `//` on complex operands. -/
  | typeError
  /-- Raised by `visit_BinOp` / `visit_UnaryOp`: operator not in the allow-list dict. -/
  | forbiddenOperator (opName : String)
  /-- The raise site of `visit_Call` saying that function fname is not
  allowed. -/
  | forbiddenFunction (fname : String)
  /-- Raised by `visit_Call`: only direct function calls by name are allowed. -/
  | onlyDirectCalls
  /-- Raised by `visit_Call`: keyword arguments not allowed (the spec
  taxonomy files this under SyntaxError). -/
  | keywordError
  /-- Raised by `visit_Call` as the Error-calling-fname wrapper: any
  exception raised inside the underlying function, re-signaled. -/
  | domainError (fname msg : String)
  /-- The raise site of `visit_Name` saying that name id is not allowed. -/
  | unknownName (id : String)
  /-- Raised by `generic_visit` / the terminal raise: unsupported
  expression element of the given kind. -/
  | forbiddenConstruct (kind : String)
  /-- Host `ZeroDivisionError` from `/`, `%`, `//` or `0 ** negative`. -/
  | divisionByZero
  /-- Raised by `_eval` in `Calculator.py`: function calls are not allowed. -/
  | callsNotAllowed
deriving DecidableEq

/-- Result type of one evaluation step. -/
abbrev EvalResult := Except Err PyVal

/-- Python `+` (`operator.add`) on the numeric tower. -/
def pyAdd : PyVal → PyVal → EvalResult
  | .int a, .int b => .ok (.int (a + b))
  | .int a, .float y => .ok (.float (a + y))
  | .float x, .int b => .ok (.float (x + b))
  | .float x, .float y => .ok (.float (x + y))
  | .complex a b, v =>
    match v with
    | .int n => .ok (.complex (a + n) b)
    | .float y => .ok (.complex (a + y) b)
    | .complex c d => .ok (.complex (a + c) (b + d))
  | v, .complex c d =>
    match v with
    | .int n => .ok (.complex (n + c) d)
    | .float x => .ok (.complex (x + c) d)
    | .complex a b => .ok (.complex (a + c) (b + d))

/-- Python `-` (`operator.sub`). -/
def pySub : PyVal → PyVal → EvalResult
  | .int a, .int b => .ok (.int (a - b))
  | .int a, .float y => .ok (.float (a - y))
  | .float x, .int b => .ok (.float (x - b))
  | .float x, .float y => .ok (.float (x - y))
  | .complex a b, v =>
    match v with
    | .int n => .ok (.complex (a - n) b)
    | .float y => .ok (.complex (a - y) b)
    | .complex c d => .ok (.complex (a - c) (b - d))
  | v, .complex c d =>
    match v with
    | .int n => .ok (.complex (n - c) (-d))
    | .float x => .ok (.complex (x - c) (-d))
    | .complex a b => .ok (.complex (a - c) (b - d))

/-- View a real-like value as a pair of reals (complex embedding). -/
def toPair : PyVal → ℝ × ℝ
  | .int n => (n, 0)
  | .float x => (x, 0)
  | .complex a b => (a, b)

/-- Python `*` (`operator.mul`). -/
def pyMul : PyVal → PyVal → EvalResult
  | .int a, .int b => .ok (.int (a * b))
  | .int a, .float y => .ok (.float (a * y))
  | .float x, .int b => .ok (.float (x * b))
  | .float x, .float y => .ok (.float (x * y))
  | a, b =>
    let p := toPair a; let q := toPair b
    .ok (.complex (p.1 * q.1 - p.2 * q.2) (p.1 * q.2 + p.2 * q.1))

/-- Python `/` (`operator.truediv`): raises `ZeroDivisionError` on a zero
divisor; int/int yields a float (true division). -/
def pyDiv (a b : PyVal) : EvalResult :=
  if isZeroVal b then .error .divisionByZero
  else
    match a, b with
    | .int a, .int b => .ok (.float ((a : ℝ) / b))
    | .int a, .float y => .ok (.float (a / y))
    | .float x, .int b => .ok (.float (x / b))
    | .float x, .float y => .ok (.float (x / y))
    | a, b =>
      let p := toPair a; let q := toPair b
      let d := q.1 * q.1 + q.2 * q.2
      .ok (.complex ((p.1 * q.1 + p.2 * q.2) / d) ((p.2 * q.1 - p.1 * q.2) / d))

/-- Python `%` (`operator.mod`): floor-based remainder (sign of the
divisor); `ZeroDivisionError` on zero divisor; `TypeError` on complex. -/
def pyMod (a b : PyVal) : EvalResult :=
  if isZeroVal b then .error .divisionByZero
  else
    match a, b with
    | .int a, .int b => .ok (.int (Int.fmod a b))
    | .int a, .float y => .ok (.float (a - y * ⌊(a : ℝ) / y⌋))
    | .float x, .int b => .ok (.float (x - b * ⌊x / (b : ℝ)⌋))
    | .float x, .float y => .ok (.float (x - y * ⌊x / y⌋))
    | _, _ => .error .typeError

/-- Python `//` (`operator.floordiv`): floor division; `ZeroDivisionError`
on zero divisor; `TypeError` on complex. -/
def pyFloorDiv (a b : PyVal) : EvalResult :=
  if isZeroVal b then .error .divisionByZero
  else
    match a, b with
    | .int a, .int b => .ok (.int (Int.fdiv a b))
    | .int a, .float y => .ok (.float (⌊(a : ℝ) / y⌋ : ℤ))
    | .float x, .int b => .ok (.float (⌊x / (b : ℝ)⌋ : ℤ))
    | .float x, .float y => .ok (.float (⌊x / y⌋ : ℤ))
    | _, _ => .error .typeError

/-- Float `**` semantics of the host: for a negative base and non-integral
exponent the result is complex (`(-1)**0.5` is `1j` up to rounding);
`0.0 ** negative` raises `ZeroDivisionError`. -/
def pyFloatPow (x y : ℝ) : EvalResult :=
  if x = 0 then
    if y = 0 then .ok (.float 1)
    else if 0 < y then .ok (.float 0)
    else .error .divisionByZero
  else if 0 < x then .ok (.float (x ^ y))
  else if y = ⌊y⌋ then .ok (.float (x ^ (⌊y⌋ : ℤ)))
  else .ok (.complex (|x| ^ y * Real.cos (y * Real.pi))
                     (|x| ^ y * Real.sin (y * Real.pi)))

/-- Python `**` (`operator.pow`).  int ** non-negative int stays int;
int ** negative int is a float; any float operand uses `pyFloatPow`;
complex operands use the principal complex power (`Complex.cpow`), with the
`ZeroDivisionError` of the host on a zero base and negative/complex
exponent. -/
def pyPow (a b : PyVal) : EvalResult :=
  match a, b with
  | .int a, .int b =>
    if 0 ≤ b then .ok (.int (a ^ b.toNat))
    else if a = 0 then .error .divisionByZero
    else .ok (.float ((a : ℝ) ^ b))
  | .int a, .float y => pyFloatPow a y
  | .float x, .int b => pyFloatPow x b
  | .float x, .float y => pyFloatPow x y
  | a, b =>
    let p := toPair a; let q := toPair b
    if p.1 = 0 ∧ p.2 = 0 then
      if q.2 = 0 ∧ 0 ≤ q.1 then
        if q.1 = 0 then .ok (.complex 1 0) else .ok (.complex 0 0)
      else .error .divisionByZero
    else
      let z : ℂ := Complex.mk p.1 p.2 ^ (Complex.mk q.1 q.2 : ℂ)
      .ok (.complex z.re z.im)

/-- Python unary `+` (`operator.pos`). -/
def pyPos : PyVal → EvalResult
  | v => .ok v

/-- Python unary `-` (`operator.neg`). -/
def pyNeg : PyVal → EvalResult
  | .int n => .ok (.int (-n))
  | .float x => .ok (.float (-x))
  | .complex a b => .ok (.complex (-a) (-b))

/-- The `_BIN_OPS` dict of `Scientic_Cal.py`: exactly
`Add, Sub, Mult, Div, Mod, Pow, FloorDiv`. -/
def BIN_OPS : BinKind → Option (PyVal → PyVal → EvalResult)
  | .add => some pyAdd
  | .sub => some pySub
  | .mult => some pyMul
  | .div => some pyDiv
  | .mod => some pyMod
  | .pow => some pyPow
  | .floorDiv => some pyFloorDiv
  | _ => none

/-- The `_UNARY_OPS` dict of `Scientic_Cal.py`: exactly `UAdd, USub`. -/
def UNARY_OPS : UnKind → Option (PyVal → EvalResult)
  | .uadd => some pyPos
  | .usub => some pyNeg
  | _ => none

/-- Binary part of the single `ALLOWED_OPERATORS` dict of `Calculator.py`:
`Add, Sub, Mult, Div, Pow, Mod` — note: no `FloorDiv`. -/
def ALLOWED_OPERATORS_bin : BinKind → Option (PyVal → PyVal → EvalResult)
  | .add => some pyAdd
  | .sub => some pySub
  | .mult => some pyMul
  | .div => some pyDiv
  | .pow => some pyPow
  | .mod => some pyMod
  | _ => none

/-- Unary part of the `ALLOWED_OPERATORS` dict of `Calculator.py`:
`USub, UAdd`. -/
def ALLOWED_OPERATORS_un : UnKind → Option (PyVal → EvalResult)
  | .usub => some pyNeg
  | .uadd => some pyPos
  | _ => none

/-- `visit_Constant`: numeric constants (ints, floats and — because Python
`bool` is a subclass of `int` — booleans) are returned; anything else
raises the only-numeric-constants ValueError. -/
def evalConst : PyConst → EvalResult
  | .int n => .ok (.int n)
  | .float x => .ok (.float x)
  | .boolean b => .ok (.int (cond b 1 0))
  | .str _ => .error .typeError
  | .noneC => .error .typeError

/-- Type of the values of the `allowed_funcs` dict: a Python callable (or,
for the constants `pi`/`e` stored in that dict, a non-callable); applying
it either returns a value or raises an exception with a message. -/
def PyFunc := List PyVal → Except String PyVal

/-- Conversion applied by the `math` module to its argument; Python
`complex` cannot be converted to `float`. -/
def toR : PyVal → Option ℝ
  | .int n => some (n : ℝ)
  | .float x => some x
  | .complex _ _ => none

/-- Lift a one-real-argument Python function to a callable: checks arity
and rejects complex arguments, as CPython `math` functions do. -/
def unary1 (f : ℝ → Except String PyVal) : PyFunc := fun args =>
  match args with
  | [v] =>
    match toR v with
    | some x => f x
    | none => .error "cannot convert complex to float"
  | _ => .error "takes exactly one argument"

/-- `math.radians`. -/
def degToRad (x : ℝ) : ℝ := x * Real.pi / 180

/-- `math.degrees`. -/
def radToDeg (x : ℝ) : ℝ := x * 180 / Real.pi

/-- `math.sqrt`: raises a math domain error on negative input. -/
def pySqrt : PyFunc :=
  unary1 fun x =>
    if 0 ≤ x then .ok (.float (Real.sqrt x)) else .error "math domain error"

/-- Builtin `abs`: preserves int-ness; on complex returns the magnitude. -/
def pyAbs : PyFunc := fun args =>
  match args with
  | [.int n] => .ok (.int |n|)
  | [.float x] => .ok (.float |x|)
  | [.complex a b] => .ok (.float (Real.sqrt (a ^ 2 + b ^ 2)))
  | _ => .error "takes exactly one argument"

/-- Round-half-to-even on the reals (the rounding of builtin `round`). -/
def roundHalfEven (x : ℝ) : ℤ :=
  if x - ⌊x⌋ < 1 / 2 then ⌊x⌋
  else if x - ⌊x⌋ = 1 / 2 then (if Even ⌊x⌋ then ⌊x⌋ else ⌊x⌋ + 1)
  else ⌊x⌋ + 1

/-- Builtin `round`: one argument gives an int (ties to even); a second
int argument rounds to that many decimal digits. -/
def pyRound : PyFunc := fun args =>
  match args with
  | [.int n] => .ok (.int n)
  | [.float x] => .ok (.int (roundHalfEven x))
  | [.int n, .int m] =>
    if 0 ≤ m then .ok (.int n)
    else .ok (.int (roundHalfEven ((n : ℝ) / (10 : ℝ) ^ (-m).toNat) *
                     (10 : ℤ) ^ (-m).toNat))
  | [.float x, .int m] =>
    .ok (.float ((roundHalfEven (x * (10 : ℝ) ^ m) : ℤ) / (10 : ℝ) ^ m))
  | _ => .error "round argument error"

/-- `math.floor`. -/
def pyFloorF : PyFunc := fun args =>
  match args with
  | [.int n] => .ok (.int n)
  | [.float x] => .ok (.int ⌊x⌋)
  | _ => .error "floor argument error"

/-- `math.ceil`. -/
def pyCeilF : PyFunc := fun args =>
  match args with
  | [.int n] => .ok (.int n)
  | [.float x] => .ok (.int ⌈x⌉)
  | _ => .error "ceil argument error"

/-- `math.factorial`: defined on non-negative ints; raises on negative
ints and (in current hosts) on floats. -/
def pyFact : PyFunc := fun args =>
  match args with
  | [.int n] =>
    if 0 ≤ n then .ok (.int (Nat.factorial n.toNat))
    else .error "factorial not defined for negative values"
  | [.float _] => .error "float object cannot be interpreted as an integer"
  | _ => .error "factorial argument error"

/-- `math.exp`. -/
def pyExpF : PyFunc := unary1 fun x => .ok (.float (Real.exp x))

/-- `math.log` (natural log, bound to the name `ln`): math domain error
on non-positive input. -/
def pyLn : PyFunc :=
  unary1 fun x =>
    if 0 < x then .ok (.float (Real.log x)) else .error "math domain error"

/-- `math.log10` (bound to the name `log`). -/
def pyLog10 : PyFunc :=
  unary1 fun x =>
    if 0 < x then .ok (.float (Real.logb 10 x)) else .error "math domain error"

/-- `math.log2`. -/
def pyLog2 : PyFunc :=
  unary1 fun x =>
    if 0 < x then .ok (.float (Real.logb 2 x)) else .error "math domain error"

/-- The `sin` binding of `make_allowed_funcs`: in `"deg"` mode the wrapper
converts its input degrees→radians before `math.sin`. -/
def sinF (mode : String) : PyFunc :=
  unary1 fun x =>
    .ok (.float (if mode = "deg" then Real.sin (degToRad x) else Real.sin x))

/-- The `cos` binding (degrees→radians conversion in `"deg"` mode). -/
def cosF (mode : String) : PyFunc :=
  unary1 fun x =>
    .ok (.float (if mode = "deg" then Real.cos (degToRad x) else Real.cos x))

/-- The `tan` binding (degrees→radians conversion in `"deg"` mode). -/
def tanF (mode : String) : PyFunc :=
  unary1 fun x =>
    .ok (.float (if mode = "deg" then Real.tan (degToRad x) else Real.tan x))

/-- The `asin` binding: `math.asin` raises outside `[-1, 1]`; in `"deg"`
mode the wrapper converts the output radians→degrees. -/
def asinF (mode : String) : PyFunc :=
  unary1 fun x =>
    if -1 ≤ x ∧ x ≤ 1 then
      .ok (.float (if mode = "deg" then radToDeg (Real.arcsin x)
                   else Real.arcsin x))
    else .error "math domain error"

/-- The `acos` binding (output radians→degrees in `"deg"` mode). -/
def acosF (mode : String) : PyFunc :=
  unary1 fun x =>
    if -1 ≤ x ∧ x ≤ 1 then
      .ok (.float (if mode = "deg" then radToDeg (Real.arccos x)
                   else Real.arccos x))
    else .error "math domain error"

/-- The `atan` binding (output radians→degrees in `"deg"` mode). -/
def atanF (mode : String) : PyFunc :=
  unary1 fun x =>
    .ok (.float (if mode = "deg" then radToDeg (Real.arctan x)
                 else Real.arctan x))

/-- `math.sinh`. -/
def pySinh : PyFunc := unary1 fun x => .ok (.float (Real.sinh x))

/-- `math.cosh`. -/
def pyCosh : PyFunc := unary1 fun x => .ok (.float (Real.cosh x))

/-- `math.tanh`. -/
def pyTanh : PyFunc := unary1 fun x => .ok (.float (Real.tanh x))

/-- `math.gamma`: raises a math domain error at the poles (non-positive
integers). -/
def pyGamma : PyFunc :=
  unary1 fun x =>
    if x = ⌊x⌋ ∧ x ≤ 0 then .error "math domain error"
    else .ok (.float (Real.Gamma x))

/-- `math.pow`: always float semantics; raises a math domain error for a
negative base with non-integral exponent and for `0` to a negative power
(unlike the `**` operator, which goes complex for the former). -/
def mathPowR (x y : ℝ) : Except String PyVal :=
  if x = 0 then
    if y = 0 then .ok (.float 1)
    else if 0 < y then .ok (.float 0)
    else .error "math domain error"
  else if 0 < x then .ok (.float (x ^ y))
  else if y = ⌊y⌋ then .ok (.float (x ^ (⌊y⌋ : ℤ)))
  else .error "math domain error"

/-- The `pow` binding (`math.pow`): two real arguments. -/
def pyMathPow : PyFunc := fun args =>
  match args with
  | [a, b] =>
    match toR a, toR b with
    | some x, some y => mathPowR x y
    | _, _ => .error "cannot convert complex to float"
  | _ => .error "pow expected 2 arguments"

/-- The dict values stored under `"pi"` and `"e"` in `allowed_funcs` are
floats, not callables; calling them raises `TypeError`, which `visit_Call`
re-signals. -/
def notCallable : PyFunc := fun _ => .error "float object is not callable"

/-- `make_allowed_funcs(mode)`: returns the pair
`(allowed_funcs, allowed_names)`.  The `allowed_funcs` dict holds the
whitelisted callables (with mode-dependent trig wrappers) plus the float
entries `pi` and `e`; `allowed_names` holds exactly the constants
`pi` and `e`. -/
def makeAllowedFuncs (mode : String) :
    (String → Option PyFunc) × (String → Option PyVal) :=
  (fun fname =>
    if fname = "sqrt" then some pySqrt
    else if fname = "abs" then some pyAbs
    else if fname = "round" then some pyRound
    else if fname = "floor" then some pyFloorF
    else if fname = "ceil" then some pyCeilF
    else if fname = "fact" then some pyFact
    else if fname = "factorial" then some pyFact
    else if fname = "exp" then some pyExpF
    else if fname = "ln" then some pyLn
    else if fname = "log" then some pyLog10
    else if fname = "log2" then some pyLog2
    else if fname = "sin" then some (sinF mode)
    else if fname = "cos" then some (cosF mode)
    else if fname = "tan" then some (tanF mode)
    else if fname = "asin" then some (asinF mode)
    else if fname = "acos" then some (acosF mode)
    else if fname = "atan" then some (atanF mode)
    else if fname = "sinh" then some pySinh
    else if fname = "cosh" then some pyCosh
    else if fname = "tanh" then some pyTanh
    else if fname = "gamma" then some pyGamma
    else if fname = "pow" then some pyMathPow
    else if fname = "pi" then some notCallable
    else if fname = "e" then some notCallable
    else none,
   fun n =>
    if n = "pi" then some (.float Real.pi)
    else if n = "e" then some (.float (Real.exp 1))
    else none)

mutual

/-- The `SafeEval` visitor of `Scientic_Cal.py`, parametric in the
`allowed_funcs` (`F`) and `allowed_names` (`N`) dicts its constructor
receives.  Dispatch mirrors `ast.NodeVisitor`: one case per `visit_X`
method, with the unconditional `raise` of `generic_visit` as the terminal
catch-all. -/
def scEval (F : String → Option PyFunc) (N : String → Option PyVal) :
    Expr → EvalResult
  | .constant c => evalConst c
  | .binOp k l r =>
    match scEval F N l with
    | .error e => .error e
    | .ok a =>
      match scEval F N r with
      | .error e => .error e
      | .ok b =>
        match BIN_OPS k with
        | some f => f a b
        | none => .error (.forbiddenOperator (binKindName k))
  | .unaryOp k e =>
    match scEval F N e with
    | .error er => .error er
    | .ok a =>
      match UNARY_OPS k with
      | some f => f a
      | none => .error (.forbiddenOperator (unKindName k))
  | .call f args kwargs =>
    match f with
    | .name fname =>
      match F fname with
      | none => .error (.forbiddenFunction fname)
      | some fn =>
        match scEvalArgs F N args with
        | .error e => .error e
        | .ok vs =>
          if kwargs.isEmpty then
            match fn vs with
            | .ok v => .ok v
            | .error msg => .error (.domainError fname msg)
          else .error .keywordError
    | _ => .error .onlyDirectCalls
  | .name id =>
    match N id with
    | some v => .ok v
    | none => .error (.unknownName id)
  | e => .error (.forbiddenConstruct (kindName e))
termination_by e => sizeOf e

/-- Left-to-right evaluation of the positional argument list
(`[self.visit(arg) for arg in node.args]`): the first failing argument
aborts the list. -/
def scEvalArgs (F : String → Option PyFunc) (N : String → Option PyVal) :
    List Expr → Except Err (List PyVal)
  | [] => .ok []
  | a :: rest =>
    match scEval F N a with
    | .error e => .error e
    | .ok v =>
      match scEvalArgs F N rest with
      | .error e => .error e
      | .ok vs => .ok (v :: vs)
termination_by l => sizeOf l

end

/-- The dict-merge of allowed_names with extra_names in `safe_eval`: the
caller-supplied extras are injected on top of the constants, for this
call only. -/
def mergeNames (base : String → Option PyVal)
    (extra : List (String × PyVal)) : String → Option PyVal :=
  fun n =>
    match extra.lookup n with
    | some v => some v
    | none => base n

/-- `safe_eval(expr, mode, extra_names)` of `Scientic_Cal.py`, at the tree
level (parsing of the input string is the host grammar and out of scope):
builds the allow-lists fresh for this call via `make_allowed_funcs`, merges
the extras, and runs the `SafeEval` visitor. -/
def safeEvalTree (mode : String) (extra : List (String × PyVal))
    (e : Expr) : EvalResult :=
  scEval (makeAllowedFuncs mode).1
    (mergeNames (makeAllowedFuncs mode).2 extra) e

/-- The inner `_eval` of `safe_eval` in `Calculator.py`: an `isinstance`
chain over `Constant`, `BinOp`, `UnaryOp` and `Call` (all calls rejected),
with the terminal `raise ValueError("Unsupported expression element")`
covering everything else — including `Name` nodes. -/
def calcEval : Expr → EvalResult
  | .constant c => evalConst c
  | .binOp k l r =>
    match calcEval l with
    | .error e => .error e
    | .ok a =>
      match calcEval r with
      | .error e => .error e
      | .ok b =>
        match ALLOWED_OPERATORS_bin k with
        | some f => f a b
        | none => .error (.forbiddenOperator (binKindName k))
  | .unaryOp k e =>
    match calcEval e with
    | .error er => .error er
    | .ok a =>
      match ALLOWED_OPERATORS_un k with
      | some f => f a
      | none => .error (.forbiddenOperator (unKindName k))
  | .call _ _ _ => .error .callsNotAllowed
  | e => .error (.forbiddenConstruct (kindName e))

/-- The result-formatting step of `evaluate_expression`:
`if isinstance(val, float) and val.is_integer(): val = int(val)` — and
nothing else (no significant-digit rounding is performed). -/
def formatVal : PyVal → PyVal
  | .float x => if x = ⌊x⌋ then .int ⌊x⌋ else .float x
  | v => v

/-- Numeric value of a real-like `PyVal` (real part of its complex view). -/
def valAsReal (v : PyVal) : ℝ := (toPair v).1

/-- Modelled from the spec: "round to a fixed significant-digit count
(10 significant digits)" — the display rounding the spec prescribes for
non-integral results, used only to compare against the formatter in the
code. -/
def specRound10 (x : ℝ) : ℝ :=
  if x = 0 then 0
  else
    ((round (x * (10 : ℝ) ^ (9 - ⌊Real.logb 10 |x|⌋)) : ℤ) : ℝ) /
      (10 : ℝ) ^ (9 - ⌊Real.logb 10 |x|⌋)

/-- Tower of `n` nested unary minuses, for probing nesting depth. -/
def nestNeg (n : ℕ) (e : Expr) : Expr := (Expr.unaryOp .usub)^[n] e

end


/-! ### Helper lemmas shared by the claim theorems -/

/-- Evaluation of the positional-argument list stops at the first failing
argument: arguments are taken strictly left to right. -/
theorem scEvalArgs_first_error (F : String → Option PyFunc)
    (N : String → Option PyVal) :
    ∀ (xs : List Expr) (bad : Expr) (ys : List Expr) (vs : List PyVal)
      (e : Err), scEvalArgs F N xs = .ok vs → scEval F N bad = .error e →
      scEvalArgs F N (xs ++ bad :: ys) = .error e := by
  intro xs
  induction xs with
  | nil =>
    intro bad ys vs e _ hbad
    simp [scEvalArgs, hbad]
  | cons a rest ih =>
    intro bad ys vs e hok hbad
    rw [scEvalArgs] at hok
    rcases ha : scEval F N a with _ | va <;> rw [ha] at hok
    · exact absurd hok (by simp)
    rcases hrest : scEvalArgs F N rest with _ | vrest <;> rw [hrest] at hok
    · exact absurd hok (by simp)
    simp only [List.cons_append, scEvalArgs, ha]
    rw [ih bad ys vrest e hrest hbad]

/-- Floor of the eleven-significant-digit probe value. -/
theorem floor_bigval : ⌊(12345678901 : ℝ) / 10⌋ = 1234567890 := by
  rw [Int.floor_eq_iff]
  constructor <;> norm_num

/-- Base-10 magnitude of the probe value: it has 11 significant digits. -/
theorem logb_bigval : ⌊Real.logb 10 ((12345678901 : ℝ) / 10)⌋ = 9 := by
  rw [Int.floor_eq_iff]
  constructor
  · rw [show ((9 : ℤ) : ℝ) = ((9 : ℕ) : ℝ) by norm_num]
    rw [Real.le_logb_iff_rpow_le (by norm_num) (by norm_num),
        Real.rpow_natCast]
    norm_num
  · rw [show ((9 : ℤ) : ℝ) + 1 = ((10 : ℕ) : ℝ) by norm_num]
    rw [Real.logb_lt_iff_lt_rpow (by norm_num) (by norm_num),
        Real.rpow_natCast]
    norm_num

/-- Rounding the probe value to the nearest integer. -/
theorem round_bigval : round ((12345678901 : ℝ) / 10) = 1234567890 := by
  rw [round_eq, Int.floor_eq_iff]
  constructor <;> norm_num

/-- The spec-prescribed 10-significant-digit rounding truncates the probe
value to its integer part. -/
theorem specRound10_bigval :
    specRound10 ((12345678901 : ℝ) / 10) = 1234567890 := by
  rw [specRound10, if_neg (by norm_num), abs_of_pos (by norm_num),
      logb_bigval]
  norm_num [round_bigval]

/-- Evaluation of the tree for the parenthesized power of -1 to the 0.5:
the `**` operator on a negative base and non-integral exponent yields the
complex unit, which the evaluator returns as a successful result. -/
theorem negOneHalfPow_eval :
    safeEvalTree "rad" []
        (.binOp .pow (.unaryOp .usub (.constant (.int 1)))
          (.constant (.float (1 / 2)))) = .ok (.complex 0 1) := by
  have hfl : ¬ ((1 : ℝ) / 2 = ⌊(1 : ℝ) / 2⌋) := by norm_num
  simp [safeEvalTree, scEval, evalConst, UNARY_OPS, pyNeg, BIN_OPS, pyPow,
        pyFloatPow, hfl]
  have hc : Real.cos (2⁻¹ * Real.pi) = 0 := by
    rw [show (2⁻¹ : ℝ) * Real.pi = Real.pi / 2 by ring, Real.cos_pi_div_two]
  have hs : Real.sin (2⁻¹ * Real.pi) = 1 := by
    rw [show (2⁻¹ : ℝ) * Real.pi = Real.pi / 2 by ring, Real.sin_pi_div_two]
  rw [if_neg (by norm_num), if_neg (by norm_num), hc, hs]

/-- Python addition preserves realness. -/
theorem pyAdd_real : ∀ a b v, pyAdd a b = .ok v → isRealVal a = true →
    isRealVal b = true → isRealVal v = true := by
  intro a b v hv ha hb
  cases a <;> cases b <;> simp_all [pyAdd, isRealVal] <;> subst hv <;> rfl

/-- Python subtraction preserves realness. -/
theorem pySub_real : ∀ a b v, pySub a b = .ok v → isRealVal a = true →
    isRealVal b = true → isRealVal v = true := by
  intro a b v hv ha hb
  cases a <;> cases b <;> simp_all [pySub, isRealVal] <;> subst hv <;> rfl

/-- Python multiplication preserves realness. -/
theorem pyMul_real : ∀ a b v, pyMul a b = .ok v → isRealVal a = true →
    isRealVal b = true → isRealVal v = true := by
  intro a b v hv ha hb
  cases a <;> cases b <;> simp_all [pyMul, isRealVal] <;> subst hv <;> rfl

/-- Python true division preserves realness. -/
theorem pyDiv_real : ∀ a b v, pyDiv a b = .ok v → isRealVal a = true →
    isRealVal b = true → isRealVal v = true := by
  intro a b v hv ha hb
  cases a <;> cases b <;> simp_all [isRealVal]
  all_goals
    rw [pyDiv] at hv
    split_ifs at hv
    all_goals simp at hv
    all_goals subst hv
    all_goals rfl

/-- Python modulo preserves realness. -/
theorem pyMod_real : ∀ a b v, pyMod a b = .ok v → isRealVal a = true →
    isRealVal b = true → isRealVal v = true := by
  intro a b v hv ha hb
  cases a <;> cases b <;> simp_all [isRealVal]
  all_goals
    rw [pyMod] at hv
    split_ifs at hv
    all_goals simp at hv
    all_goals subst hv
    all_goals rfl

/-- Python floor division preserves realness. -/
theorem pyFloorDiv_real : ∀ a b v, pyFloorDiv a b = .ok v →
    isRealVal a = true → isRealVal b = true → isRealVal v = true := by
  intro a b v hv ha hb
  cases a <;> cases b <;> simp_all [isRealVal]
  all_goals
    rw [pyFloorDiv] at hv
    split_ifs at hv
    all_goals simp at hv
    all_goals subst hv
    all_goals rfl

/-- An even tower of unary minuses over the literal 1 evaluates to 1, for
every height: the evaluator recurses to any depth with no guard. -/
theorem nestNeg_eval_ok (F : String → Option PyFunc)
    (N : String → Option PyVal) :
    ∀ n : ℕ, scEval F N (nestNeg (2 * n) (.constant (.int 1))) =
      .ok (.int 1) := by
  intro n
  induction n with
  | zero => simp [nestNeg, scEval, evalConst]
  | succ m ih =>
    have h1 : 2 * (m + 1) = 2 * m + 1 + 1 := by ring
    rw [nestNeg, h1, Function.iterate_succ_apply',
        Function.iterate_succ_apply']
    rw [nestNeg] at ih
    simp [scEval, ih, UNARY_OPS, pyNeg]

/-! ### Claim C1 — fail-closed dispatch -/

/-- Counterexample to claim C1 as stated: a string literal is not one of the
five specified node kinds, yet it fails with the non-numeric-constant
TypeError of the literal rule, and a bitwise operator occurs inside a
BinaryOp node and fails with ForbiddenOperatorError — neither failure is
ForbiddenConstructError. -/
theorem C1_counterexample :
    safeEvalTree "rad" [] (.constant (.str "x")) = .error .typeError ∧
    safeEvalTree "rad" []
        (.binOp .bitOr (.constant (.int 1)) (.constant (.int 2))) =
      .error (.forbiddenOperator "BitOr") ∧
    Err.typeError ≠ .forbiddenConstruct "Constant" ∧
    Err.forbiddenOperator "BitOr" ≠ .forbiddenConstruct "BinOp" := by
  refine ⟨?_, ?_, by decide, by decide⟩
  · simp [safeEvalTree, scEval, evalConst]
  · simp [safeEvalTree, scEval, evalConst, BIN_OPS, binKindName]

/-- Claim C1 (amended): any node whose kind is not among the five the
dispatch handles reaches the terminal case (`generic_visit` in
`Scientic_Cal.py`, the final `raise` in `Calculator.py`) and fails with
ForbiddenConstructError regardless of its children, so no arithmetic on it
ever occurs; string (non-numeric) literals, which are literal-kind nodes,
fail with TypeError instead, and bitwise operators, which occur inside
BinaryOp nodes, fail with ForbiddenOperatorError — in every case
evaluation fails closed. -/
theorem C1_fail_closed_dispatch :
    (∀ F N e, forbiddenKind e = true →
      scEval F N e = .error (.forbiddenConstruct (kindName e))) ∧
    (∀ e, forbiddenKind e = true →
      calcEval e = .error (.forbiddenConstruct (kindName e))) ∧
    (∀ F N s, scEval F N (.constant (.str s)) = .error .typeError) := by
  refine ⟨fun F N e he => ?_, fun e he => ?_, fun F N s => ?_⟩
  · cases e <;> simp_all [forbiddenKind, scEval, kindName]
  · cases e <;> simp_all [forbiddenKind, calcEval, kindName]
  · simp [scEval, evalConst]

/-- Witness for C1: a concrete attribute-access node is rejected with
ForbiddenConstructError by both evaluators. -/
theorem C1_fail_closed_dispatch_witness :
    scEval (makeAllowedFuncs "rad").1 (mergeNames (makeAllowedFuncs "rad").2 [])
        (.attribute (.name "os") "system") =
      .error (.forbiddenConstruct "Attribute") ∧
    calcEval (.attribute (.name "os") "system") =
      .error (.forbiddenConstruct "Attribute") :=
  ⟨C1_fail_closed_dispatch.1 _ _ (.attribute (.name "os") "system") rfl,
   C1_fail_closed_dispatch.2.1 (.attribute (.name "os") "system") rfl⟩

/-! ### Claim C2 — call validation -/

/-- Counterexample to claim C2 as stated: two calls that carry keyword
arguments and do not fail with the keyword-argument SyntaxError — argument
evaluation and the callee check take precedence over the keyword check. -/
theorem C2_counterexample :
    safeEvalTree "rad" []
        (.call (.name "sin")
          [.binOp .div (.constant (.int 1)) (.constant (.int 0))]
          [("x", .constant (.int 2))]) =
      .error .divisionByZero ∧
    safeEvalTree "rad" []
        (.call (.name "nosuch") [] [("x", .constant (.int 1))]) =
      .error (.forbiddenFunction "nosuch") ∧
    Err.divisionByZero ≠ .keywordError ∧
    Err.forbiddenFunction "nosuch" ≠ .keywordError := by
  refine ⟨?_, ?_, by decide, by decide⟩
  · simp [safeEvalTree, scEval, scEvalArgs, evalConst, makeAllowedFuncs,
          BIN_OPS, pyDiv, isZeroVal]
  · simp [safeEvalTree, scEval, makeAllowedFuncs]

/-- Claim C2 (amended): the callee of a Call must be a bare name, else the
calls-by-name-only error; a bare name absent from the allowed-functions
dict fails with ForbiddenFunctionError before any argument is evaluated; a
call carrying keyword arguments fails with the keyword-argument error (the
SyntaxError of the spec taxonomy) only after the callee is validated and
every positional argument evaluates successfully — an earlier failure
takes precedence.  In `Calculator.py` every call is rejected outright. -/
theorem C2_call_validation :
    (∀ F N f args kwargs, (∀ id, f ≠ .name id) →
      scEval F N (.call f args kwargs) = .error .onlyDirectCalls) ∧
    (∀ F N fname args kwargs, F fname = none →
      scEval F N (.call (.name fname) args kwargs) =
        .error (.forbiddenFunction fname)) ∧
    (∀ F N fname fn args kwargs vs, F fname = some fn →
      scEvalArgs F N args = .ok vs → kwargs ≠ [] →
      scEval F N (.call (.name fname) args kwargs) = .error .keywordError) ∧
    (∀ f args kwargs, calcEval (.call f args kwargs) = .error .callsNotAllowed) := by
  refine ⟨fun F N f args kwargs hf => ?_, fun F N fname args kwargs hF => ?_,
    fun F N fname fn args kwargs vs hF hargs hkw => ?_,
    fun f args kwargs => by simp [calcEval]⟩
  · cases f
    case name id => exact absurd rfl (hf id)
    all_goals simp [scEval]
  · simp [scEval, hF]
  · have : kwargs.isEmpty = false := by
      cases kwargs <;> simp_all
    simp [scEval, hF, hargs, this]

/-- Witness for C2: `sin` called with a keyword argument and no positional
arguments fails with the keyword-argument error. -/
theorem C2_call_validation_witness :
    scEval (makeAllowedFuncs "rad").1 (mergeNames (makeAllowedFuncs "rad").2 [])
        (.call (.name "sin") [] [("x", .constant (.int 2))]) =
      .error .keywordError := by
  refine C2_call_validation.2.2.1 _ _ "sin" (sinF "rad") [] _ [] ?_ ?_ ?_
  · simp [makeAllowedFuncs]
  · simp [scEvalArgs]
  · simp

/-! ### Claim C3 — division by zero -/

/-- Claim C3 (confirmed): whenever both operands of a division or modulo
evaluate and the divisor is zero, the result is the typed
division-by-zero failure (never an infinity — the host raises
`ZeroDivisionError`, caught at the evaluation boundary); in particular
`1/0` fails this way in both evaluators. -/
theorem C3_division_by_zero :
    (∀ F N l r a b, scEval F N l = .ok a → scEval F N r = .ok b →
      isZeroVal b →
      scEval F N (.binOp .div l r) = .error .divisionByZero ∧
      scEval F N (.binOp .mod l r) = .error .divisionByZero) ∧
    safeEvalTree "rad" []
        (.binOp .div (.constant (.int 1)) (.constant (.int 0))) =
      .error .divisionByZero ∧
    calcEval (.binOp .div (.constant (.int 1)) (.constant (.int 0))) =
      .error .divisionByZero := by
  refine ⟨fun F N l r a b hl hr hz => ⟨?_, ?_⟩, ?_, ?_⟩
  · simp [scEval, hl, hr, BIN_OPS, pyDiv, hz]
  · simp [scEval, hl, hr, BIN_OPS, pyMod, hz]
  · simp [safeEvalTree, scEval, evalConst, BIN_OPS, pyDiv, isZeroVal]
  · simp [calcEval, evalConst, ALLOWED_OPERATORS_bin, pyDiv, isZeroVal]

/-- Witness for C3: `1 % 0` fails with the division-by-zero error. -/
theorem C3_division_by_zero_witness :
    scEval (makeAllowedFuncs "rad").1 (mergeNames (makeAllowedFuncs "rad").2 [])
        (.binOp .mod (.constant (.int 1)) (.constant (.int 0))) =
      .error .divisionByZero := by
  refine (C3_division_by_zero.1 _ _ _ _ (.int 1) (.int 0) ?_ ?_ ?_).2
  · simp [scEval, evalConst]
  · simp [scEval, evalConst]
  · exact rfl

/-! ### Claim C4 — operator allow-list -/

/-- Counterexample to claim C4 as stated: integer floor division is not
permitted by the `ALLOWED_OPERATORS` dict of `Calculator.py` — `7 // 2`
fails there with ForbiddenOperatorError, while the scientific evaluator
computes 3. -/
theorem C4_counterexample :
    calcEval (.binOp .floorDiv (.constant (.int 7)) (.constant (.int 2))) =
      .error (.forbiddenOperator "FloorDiv") ∧
    safeEvalTree "rad" []
        (.binOp .floorDiv (.constant (.int 7)) (.constant (.int 2))) =
      .ok (.int 3) := by
  constructor
  · simp [calcEval, evalConst, ALLOWED_OPERATORS_bin, binKindName]
  · simp [safeEvalTree, scEval, evalConst, BIN_OPS, pyFloorDiv, isZeroVal]

/-- Claim C4 (amended): in `Scientic_Cal.py` the binary allow-list is
exactly add, subtract, multiply, true-divide (float result even for
integer operands), modulo, floor-divide and power, and the unary
allow-list exactly plus and negate; any other operator kind inside a
BinaryOp/UnaryOp node fails with ForbiddenOperatorError once its operands
have evaluated.  The list in `Calculator.py` omits integer floor division
(which therefore fails there) but otherwise agrees. -/
theorem C4_operator_allow_list :
    (∀ k : BinKind, (BIN_OPS k).isSome ↔
      k ∈ [BinKind.add, .sub, .mult, .div, .mod, .floorDiv, .pow]) ∧
    (∀ k : UnKind, (UNARY_OPS k).isSome ↔ k ∈ [UnKind.uadd, .usub]) ∧
    (∀ k : BinKind, (ALLOWED_OPERATORS_bin k).isSome ↔
      k ∈ [BinKind.add, .sub, .mult, .div, .mod, .pow]) ∧
    (∀ k : UnKind, (ALLOWED_OPERATORS_un k).isSome ↔ k ∈ [UnKind.uadd, .usub]) ∧
    (∀ F N k l r a b, scEval F N l = .ok a → scEval F N r = .ok b →
      BIN_OPS k = none →
      scEval F N (.binOp k l r) = .error (.forbiddenOperator (binKindName k))) ∧
    (∀ F N k e a, scEval F N e = .ok a → UNARY_OPS k = none →
      scEval F N (.unaryOp k e) = .error (.forbiddenOperator (unKindName k))) ∧
    (∀ a b : ℤ, b ≠ 0 →
      pyDiv (.int a) (.int b) = .ok (.float ((a : ℝ) / b))) := by
  refine ⟨fun k => by cases k <;> simp [BIN_OPS],
    fun k => by cases k <;> simp [UNARY_OPS],
    fun k => by cases k <;> simp [ALLOWED_OPERATORS_bin],
    fun k => by cases k <;> simp [ALLOWED_OPERATORS_un],
    fun F N k l r a b hl hr hk => by simp [scEval, hl, hr, hk],
    fun F N k e a he hk => by simp [scEval, he, hk],
    fun a b hb => by simp [pyDiv, isZeroVal, hb]⟩

/-- Witness for C4: a forbidden bitwise-and operator fails with
ForbiddenOperatorError, and `1 / 2` is true division with a float result. -/
theorem C4_operator_allow_list_witness :
    scEval (makeAllowedFuncs "rad").1 (mergeNames (makeAllowedFuncs "rad").2 [])
        (.binOp .bitAnd (.constant (.int 1)) (.constant (.int 2))) =
      .error (.forbiddenOperator "BitAnd") ∧
    pyDiv (.int 1) (.int 2) = .ok (.float (((1 : ℤ) : ℝ) / ((2 : ℤ) : ℝ))) := by
  constructor
  · refine C4_operator_allow_list.2.2.2.2.1 _ _ .bitAnd _ _ (.int 1) (.int 2)
      ?_ ?_ rfl
    · simp [scEval, evalConst]
    · simp [scEval, evalConst]
  · exact C4_operator_allow_list.2.2.2.2.2.2 1 2 (by norm_num)

/-! ### Claim C5 — identifier resolution -/

/-- Claim C5 (confirmed): the bound-name table used by `safe_eval` is the
constants `pi` and `e` overlaid with the caller-supplied extras for this
call; `visit_Name` returns the bound value and fails with UnknownNameError
for any unbound identifier; and the evaluation context is rebuilt from the
arguments of each call, so injected names cannot persist inside the
evaluator. -/
theorem C5_identifier_resolution :
    (∀ mode extra n,
      mergeNames (makeAllowedFuncs mode).2 extra n =
        match extra.lookup n with
        | some v => some v
        | none => (makeAllowedFuncs mode).2 n) ∧
    (∀ mode, (makeAllowedFuncs mode).2 "pi" = some (.float Real.pi)) ∧
    (∀ mode, (makeAllowedFuncs mode).2 "e" = some (.float (Real.exp 1))) ∧
    (∀ mode n, n ≠ "pi" → n ≠ "e" → (makeAllowedFuncs mode).2 n = none) ∧
    (∀ F N n v, N n = some v → scEval F N (.name n) = .ok v) ∧
    (∀ F N n, N n = none → scEval F N (.name n) = .error (.unknownName n)) ∧
    (∀ mode extra e, safeEvalTree mode extra e =
      scEval (makeAllowedFuncs mode).1
        (mergeNames (makeAllowedFuncs mode).2 extra) e) := by
  refine ⟨fun mode extra n => rfl, fun mode => rfl, fun mode => rfl,
    fun mode n hpi he => ?_, fun F N n v h => by simp [scEval, h],
    fun F N n h => by simp [scEval, h], fun mode extra e => rfl⟩
  simp [makeAllowedFuncs, hpi, he]

/-- Witness for C5: `ans` is unbound when no extras are passed, bound to
the injected value when the caller supplies it for the call, and `pi` is
always bound to π. -/
theorem C5_identifier_resolution_witness :
    safeEvalTree "rad" [] (.name "ans") = .error (.unknownName "ans") ∧
    safeEvalTree "rad" [("ans", .int 7)] (.name "ans") = .ok (.int 7) ∧
    safeEvalTree "rad" [] (.name "pi") = .ok (.float Real.pi) := by
  refine ⟨?_, ?_, ?_⟩
  · rw [C5_identifier_resolution.2.2.2.2.2.2 "rad" [] (.name "ans")]
    exact C5_identifier_resolution.2.2.2.2.2.1 _ _ "ans"
      (by simp [mergeNames, makeAllowedFuncs])
  · rw [C5_identifier_resolution.2.2.2.2.2.2 "rad" [("ans", .int 7)] (.name "ans")]
    exact C5_identifier_resolution.2.2.2.2.1 _ _ "ans" (.int 7)
      (by simp [mergeNames])
  · rw [C5_identifier_resolution.2.2.2.2.2.2 "rad" [] (.name "pi")]
    exact C5_identifier_resolution.2.2.2.2.1 _ _ "pi" (.float Real.pi)
      (by simp [mergeNames, makeAllowedFuncs])

/-! ### Claim C6 — domain-error re-signaling -/

/-- Claim C6 (confirmed): positional arguments are evaluated left to right
(the first failing argument aborts the call with its own error), the
values are passed positionally to the underlying function, and any
exception the function raises — arity mismatch or domain violation — is
re-signaled as the DomainError-style Error-calling failure; concretely
`factorial(-1)`, `factorial(2.5)`, `sqrt(-1)` and an arity mismatch all
fail this way. -/
theorem C6_domain_error :
    (∀ F N fname fn args vs msg, F fname = some fn →
      scEvalArgs F N args = .ok vs → fn vs = .error msg →
      scEval F N (.call (.name fname) args []) =
        .error (.domainError fname msg)) ∧
    (∀ F N fname fn args vs v, F fname = some fn →
      scEvalArgs F N args = .ok vs → fn vs = .ok v →
      scEval F N (.call (.name fname) args []) = .ok v) ∧
    (∀ F N xs bad ys vs e, scEvalArgs F N xs = .ok vs →
      scEval F N bad = .error e →
      scEval F N (.call (.name "sqrt") (xs ++ bad :: ys) []) =
        (if F "sqrt" = none then .error (.forbiddenFunction "sqrt")
         else .error e)) ∧
    safeEvalTree "rad" []
        (.call (.name "factorial") [.unaryOp .usub (.constant (.int 1))] []) =
      .error (.domainError "factorial"
        "factorial not defined for negative values") ∧
    safeEvalTree "rad" []
        (.call (.name "factorial") [.constant (.float (5 / 2))] []) =
      .error (.domainError "factorial"
        "float object cannot be interpreted as an integer") ∧
    safeEvalTree "rad" []
        (.call (.name "sqrt") [.unaryOp .usub (.constant (.int 1))] []) =
      .error (.domainError "sqrt" "math domain error") ∧
    safeEvalTree "rad" []
        (.call (.name "sqrt") [.constant (.int 1), .constant (.int 2)] []) =
      .error (.domainError "sqrt" "takes exactly one argument") := by
  refine ⟨fun F N fname fn args vs msg hF hargs hfn => ?_,
    fun F N fname fn args vs v hF hargs hfn => ?_,
    fun F N xs bad ys vs e hok hbad => ?_, ?_, ?_, ?_, ?_⟩
  · simp [scEval, hF, hargs, hfn]
  · simp [scEval, hF, hargs, hfn]
  · rcases hF : F "sqrt" with _ | fn
    · simp [scEval, hF]
    · simp [scEval, hF, scEvalArgs_first_error F N xs bad ys vs e hok hbad]
  · simp [safeEvalTree, scEval, scEvalArgs, evalConst, makeAllowedFuncs,
          UNARY_OPS, pyNeg, pyFact]
  · simp [safeEvalTree, scEval, scEvalArgs, evalConst, makeAllowedFuncs, pyFact]
  · have hneg : ¬ (0 : ℝ) ≤ ((-1 : ℤ) : ℝ) := by norm_num
    simp [safeEvalTree, scEval, scEvalArgs, evalConst, makeAllowedFuncs,
          UNARY_OPS, pyNeg, pySqrt, unary1, toR, hneg]
    norm_num
  · simp [safeEvalTree, scEval, scEvalArgs, evalConst, makeAllowedFuncs,
          pySqrt, unary1]

/-- Witness for C6: the re-signaling clause applied to a concrete domain
violation, `ln(0)`. -/
theorem C6_domain_error_witness :
    scEval (makeAllowedFuncs "rad").1 (mergeNames (makeAllowedFuncs "rad").2 [])
        (.call (.name "ln") [.constant (.int 0)] []) =
      .error (.domainError "ln" "math domain error") := by
  refine C6_domain_error.1 _ _ "ln" pyLn [.constant (.int 0)] [.int 0]
    "math domain error" ?_ ?_ ?_
  · simp [makeAllowedFuncs]
  · simp [scEvalArgs, scEval, evalConst]
  · simp [pyLn, unary1, toR]

/-! ### Claim C7 — angle-mode trig semantics -/

/-- Claim C7 (confirmed): in degree mode the `sin`, `cos`, `tan` bindings
convert their input degrees to radians before the underlying function, and
`asin`, `acos`, `atan` convert their output radians to degrees after it;
in radian mode the bindings are the bare functions, so the two modes agree
on equivalent angles — concretely `sin(30)` in degrees and `sin(pi/6)` in
radians both evaluate to exactly 1/2 in the real-number idealization. -/
theorem C7_angle_mode_trig :
    (∀ x : ℝ, safeEvalTree "deg" []
        (.call (.name "sin") [.constant (.float x)] []) =
      .ok (.float (Real.sin (degToRad x)))) ∧
    (∀ x : ℝ, safeEvalTree "deg" []
        (.call (.name "cos") [.constant (.float x)] []) =
      .ok (.float (Real.cos (degToRad x)))) ∧
    (∀ x : ℝ, safeEvalTree "deg" []
        (.call (.name "tan") [.constant (.float x)] []) =
      .ok (.float (Real.tan (degToRad x)))) ∧
    (∀ x : ℝ, -1 ≤ x → x ≤ 1 → safeEvalTree "deg" []
        (.call (.name "asin") [.constant (.float x)] []) =
      .ok (.float (radToDeg (Real.arcsin x)))) ∧
    (∀ x : ℝ, -1 ≤ x → x ≤ 1 → safeEvalTree "deg" []
        (.call (.name "acos") [.constant (.float x)] []) =
      .ok (.float (radToDeg (Real.arccos x)))) ∧
    (∀ x : ℝ, safeEvalTree "deg" []
        (.call (.name "atan") [.constant (.float x)] []) =
      .ok (.float (radToDeg (Real.arctan x)))) ∧
    (∀ x : ℝ, safeEvalTree "rad" []
        (.call (.name "sin") [.constant (.float x)] []) =
      .ok (.float (Real.sin x))) ∧
    (∀ x : ℝ, -1 ≤ x → x ≤ 1 → safeEvalTree "rad" []
        (.call (.name "asin") [.constant (.float x)] []) =
      .ok (.float (Real.arcsin x))) ∧
    safeEvalTree "deg" [] (.call (.name "sin") [.constant (.int 30)] []) =
      .ok (.float (1 / 2)) ∧
    safeEvalTree "rad" [] (.call (.name "sin")
        [.binOp .div (.name "pi") (.constant (.int 6))] []) =
      .ok (.float (1 / 2)) := by
  refine ⟨fun x => ?_, fun x => ?_, fun x => ?_, fun x h1 h2 => ?_,
    fun x h1 h2 => ?_, fun x => ?_, fun x => ?_, fun x h1 h2 => ?_, ?_, ?_⟩
  · simp [safeEvalTree, scEval, scEvalArgs, evalConst, makeAllowedFuncs,
          sinF, unary1, toR]
  · simp [safeEvalTree, scEval, scEvalArgs, evalConst, makeAllowedFuncs,
          cosF, unary1, toR]
  · simp [safeEvalTree, scEval, scEvalArgs, evalConst, makeAllowedFuncs,
          tanF, unary1, toR]
  · simp [safeEvalTree, scEval, scEvalArgs, evalConst, makeAllowedFuncs,
          asinF, unary1, toR, h1, h2]
  · simp [safeEvalTree, scEval, scEvalArgs, evalConst, makeAllowedFuncs,
          acosF, unary1, toR, h1, h2]
  · simp [safeEvalTree, scEval, scEvalArgs, evalConst, makeAllowedFuncs,
          atanF, unary1, toR]
  · simp [safeEvalTree, scEval, scEvalArgs, evalConst, makeAllowedFuncs,
          sinF, unary1, toR]
  · simp [safeEvalTree, scEval, scEvalArgs, evalConst, makeAllowedFuncs,
          asinF, unary1, toR, h1, h2]
  · simp [safeEvalTree, scEval, scEvalArgs, evalConst, makeAllowedFuncs,
          sinF, unary1, toR, degToRad]
    rw [show (30 : ℝ) * Real.pi / 180 = Real.pi / 6 by ring,
        Real.sin_pi_div_six]
    norm_num
  · simp [safeEvalTree, scEval, scEvalArgs, evalConst, mergeNames,
          makeAllowedFuncs, BIN_OPS, pyDiv, isZeroVal, sinF, unary1, toR]

/-- Witness for C7: the degree-mode `asin` clause at the concrete input 0. -/
theorem C7_angle_mode_trig_witness :
    safeEvalTree "deg" [] (.call (.name "asin") [.constant (.float 0)] []) =
      .ok (.float (radToDeg (Real.arcsin 0))) :=
  C7_angle_mode_trig.2.2.2.1 0 (by norm_num) (by norm_num)

/-! ### Claim C8 — result formatting -/

/-- Counterexample to claim C8 as stated: the evaluator produces the
eleven-significant-digit value `12345678901 / 10`, the display formatter
returns it unchanged (no rounding to 10 significant digits is ever
performed), yet the 10-significant-digit rounding prescribed by the spec
would change it. -/
theorem C8_counterexample :
    safeEvalTree "rad" []
        (.binOp .div (.constant (.int 12345678901)) (.constant (.int 10))) =
      .ok (.float ((12345678901 : ℝ) / 10)) ∧
    formatVal (.float ((12345678901 : ℝ) / 10)) =
      .float ((12345678901 : ℝ) / 10) ∧
    specRound10 ((12345678901 : ℝ) / 10) ≠ (12345678901 : ℝ) / 10 := by
  refine ⟨?_, ?_, ?_⟩
  · simp [safeEvalTree, scEval, evalConst, BIN_OPS, pyDiv, isZeroVal]
  · have h : ¬ ((12345678901 : ℝ) / 10 = ⌊(12345678901 : ℝ) / 10⌋) := by
      rw [floor_bigval]; norm_num
    simp only [formatVal]
    rw [if_neg h]
  · rw [specRound10_bigval]; norm_num

/-- Claim C8 (amended): a float result whose fractional part is exactly
zero is converted to the integer of the same value, and an integer result
is displayed as-is (`2+2` yields the int 4); any other result is kept at
full precision — no rounding to a fixed significant-digit count is
performed — and the stored value (reused as `ans`) is the converted value,
which is numerically equal to the original. -/
theorem C8_result_formatting :
    (∀ x : ℝ, x = ⌊x⌋ → formatVal (.float x) = .int ⌊x⌋) ∧
    (∀ x : ℝ, x ≠ ⌊x⌋ → formatVal (.float x) = .float x) ∧
    (∀ n : ℤ, formatVal (.int n) = .int n) ∧
    (∀ v, isRealVal v = true → valAsReal (formatVal v) = valAsReal v) ∧
    (safeEvalTree "rad" []
        (.binOp .add (.constant (.int 2)) (.constant (.int 2))) =
      .ok (.int 4) ∧ formatVal (.int 4) = .int 4) := by
  have h22 : safeEvalTree "rad" []
      (.binOp .add (.constant (.int 2)) (.constant (.int 2))) =
      .ok (.int 4) := by
    simp [safeEvalTree, scEval, evalConst, BIN_OPS, pyAdd]
  refine ⟨fun x h => ?_, fun x h => ?_, fun n => rfl, fun v hv => ?_,
    h22, rfl⟩
  · simp only [formatVal]; rw [if_pos h]
  · simp only [formatVal]; rw [if_neg h]
  · cases v with
    | int n => rfl
    | float x =>
      simp only [formatVal]
      split_ifs with h
      · simp only [valAsReal, toPair]
        exact h.symm
      · rfl
    | complex a b => simp [isRealVal] at hv

/-- Witness for C8: the integral float 4.0 is displayed as the integer 4. -/
theorem C8_result_formatting_witness :
    formatVal (.float (4 : ℝ)) = .int ⌊(4 : ℝ)⌋ :=
  C8_result_formatting.1 4 (by norm_num)

/-! ### Claim C9 — numeric result type -/

/-- Counterexample to claim C9 as stated: the parenthesized power of -1 to
the exponent 0.5 evaluates successfully to a non-real (complex) value
instead of failing or returning a real number. -/
theorem C9_counterexample :
    safeEvalTree "rad" []
        (.binOp .pow (.unaryOp .usub (.constant (.int 1)))
          (.constant (.float (1 / 2)))) = .ok (.complex 0 1) ∧
    isRealVal (.complex 0 1) = false :=
  ⟨negOneHalfPow_eval, rfl⟩

/-- Claim C9 (amended): every binary operator on the allow-list except
power, and every allow-listed unary operator, returns a real value on real
operands, so a successful evaluation stays real — except that the power
operator applied to a negative base and non-integral exponent follows the
host semantics and returns a complex value, as the evaluation of the
parenthesized power of -1 to the 0.5 shows. -/
theorem C9_numeric_result_type :
    (∀ (k : BinKind) f a b v, k ≠ .pow → BIN_OPS k = some f →
      f a b = .ok v → isRealVal a = true → isRealVal b = true →
      isRealVal v = true) ∧
    (∀ (k : UnKind) f a v, UNARY_OPS k = some f → f a = .ok v →
      isRealVal a = true → isRealVal v = true) ∧
    safeEvalTree "rad" []
        (.binOp .pow (.unaryOp .usub (.constant (.int 1)))
          (.constant (.float (1 / 2)))) = .ok (.complex 0 1) := by
  refine ⟨fun k f a b v hk hf hv ha hb => ?_,
    fun k f a v hf hv ha => ?_, negOneHalfPow_eval⟩
  · cases k with
    | add =>
      have h := Option.some.inj (show some pyAdd = some f from hf)
      subst h; exact pyAdd_real a b v hv ha hb
    | sub =>
      have h := Option.some.inj (show some pySub = some f from hf)
      subst h; exact pySub_real a b v hv ha hb
    | mult =>
      have h := Option.some.inj (show some pyMul = some f from hf)
      subst h; exact pyMul_real a b v hv ha hb
    | div =>
      have h := Option.some.inj (show some pyDiv = some f from hf)
      subst h; exact pyDiv_real a b v hv ha hb
    | mod =>
      have h := Option.some.inj (show some pyMod = some f from hf)
      subst h; exact pyMod_real a b v hv ha hb
    | pow => exact absurd rfl hk
    | floorDiv =>
      have h := Option.some.inj (show some pyFloorDiv = some f from hf)
      subst h; exact pyFloorDiv_real a b v hv ha hb
    | bitOr => exact absurd (show (none : Option _) = some f from hf) (by simp)
    | bitAnd => exact absurd (show (none : Option _) = some f from hf) (by simp)
    | bitXor => exact absurd (show (none : Option _) = some f from hf) (by simp)
    | lshift => exact absurd (show (none : Option _) = some f from hf) (by simp)
    | rshift => exact absurd (show (none : Option _) = some f from hf) (by simp)
    | matMult => exact absurd (show (none : Option _) = some f from hf) (by simp)
  · cases k with
    | uadd =>
      have h := Option.some.inj (show some pyPos = some f from hf)
      subst h
      have hva : v = a := by simpa [pyPos] using hv.symm
      subst hva; exact ha
    | usub =>
      have h := Option.some.inj (show some pyNeg = some f from hf)
      subst h
      cases a <;> simp_all [pyNeg, isRealVal] <;> subst hv <;> rfl
    | notOp => exact absurd (show (none : Option _) = some f from hf) (by simp)
    | invert => exact absurd (show (none : Option _) = some f from hf) (by simp)

/-- Witness for C9: the realness-preservation clause at `1 + 2`. -/
theorem C9_numeric_result_type_witness : isRealVal (.int 3) = true :=
  C9_numeric_result_type.1 .add pyAdd (.int 1) (.int 2) (.int 3)
    (by decide) rfl (by simp [pyAdd]) rfl rfl

/-! ### Claim C10 — depth guard -/

/-- Counterexample to claim C10 as stated: an expression of nesting depth
200 — far beyond the claimed bound of 100 — evaluates successfully; no
TooComplexError is ever produced (no such failure exists in the code). -/
theorem C10_counterexample :
    safeEvalTree "rad" [] (nestNeg 200 (.constant (.int 1))) =
      .ok (.int 1) := by
  have h := nestNeg_eval_ok (makeAllowedFuncs "rad").1
    (mergeNames (makeAllowedFuncs "rad").2 []) 100
  simpa [safeEvalTree] using h

/-- Claim C10 (amended): the evaluator enforces no explicit nesting-depth
bound — trees of arbitrary nesting depth are evaluated by plain structural
recursion (bounded only by the stack of the host interpreter), as the
family of even towers of unary minuses shows. -/
theorem C10_no_depth_guard :
    ∀ n : ℕ, safeEvalTree "rad" [] (nestNeg (2 * n) (.constant (.int 1))) =
      .ok (.int 1) :=
  fun n => nestNeg_eval_ok _ _ n
